import Mathlib

/-!
Shallow embedding of service.py from the AgenticCodeReviewer repository.

The module embeds the two FastAPI handlers, review and inline_suggestion,
as pure Lean functions over an explicit environment that models the
outcomes of the external effects: the git subprocess chain, the
filesystem state of the temporary workspace, the rule backend and the
AI backend.  An HTTP outcome is modelled as a status code plus either a
response value or a detail string, together with a trace of the
observable side effects: workspace creation and deletion, the git
commands issued, and the diff text handed to the backends.  The numeric
AI fields (score, temperature) are carried as rationals; they are passed
through untouched by this layer.
-/

namespace Service

/-- Truthiness of an optional string in Python: None and the empty string are falsy. -/
def pyTruthyStr : Option String → Bool
  | none => false
  | some s => !(s == "")

/-- Truthiness of an optional integer in Python: None and 0 are falsy. -/
def pyTruthyInt : Option Int → Bool
  | none => false
  | some n => !(n == 0)

/-- Python `a or b` on an optional string with a string default, as in line 78
of service.py: `req.diff or ""`. -/
def pyOrStr (a : Option String) (b : String) : String :=
  match a with
  | none => b
  | some s => if s == "" then b else s

/-- A UTF-8 continuation byte: 0x80 to 0xBF. -/
def isUtf8Cont (b : Nat) : Bool := 0x80 ≤ b && b ≤ 0xBF

/-- Lower bound of the second byte of a three-byte sequence (0xA0 after 0xE0,
which excludes overlong forms). -/
def utf8Lo3 (b : Nat) : Nat := if b = 0xE0 then 0xA0 else 0x80

/-- Upper bound of the second byte of a three-byte sequence (0x9F after 0xED,
which excludes surrogates). -/
def utf8Hi3 (b : Nat) : Nat := if b = 0xED then 0x9F else 0xBF

/-- Lower bound of the second byte of a four-byte sequence (0x90 after 0xF0,
which excludes overlong forms). -/
def utf8Lo4 (b : Nat) : Nat := if b = 0xF0 then 0x90 else 0x80

/-- Upper bound of the second byte of a four-byte sequence (0x8F after 0xF4,
which keeps code points at most 0x10FFFF). -/
def utf8Hi4 (b : Nat) : Nat := if b = 0xF4 then 0x8F else 0xBF

/-- Embedding of bytes.decode("utf-8", errors="ignore") from line 71 of
service.py: decode a maximal valid sequence at the head, otherwise drop one
byte and continue.  Dropping one byte at a time yields the same output as the
maximal-subpart policy of CPython, because every byte inside a rejected
subpart is itself invalid as a sequence start. -/
def utf8DecodeIgnoreList : List Nat → List Char
  | [] => []
  | b :: rest =>
    if b ≤ 0x7F then Char.ofNat b :: utf8DecodeIgnoreList rest
    else if 0xC2 ≤ b && b ≤ 0xDF then
      match rest with
      | b2 :: rest2 =>
        if isUtf8Cont b2 then
          Char.ofNat ((b - 0xC0) * 64 + (b2 - 0x80)) :: utf8DecodeIgnoreList rest2
        else utf8DecodeIgnoreList (b2 :: rest2)
      | [] => []
    else if 0xE0 ≤ b && b ≤ 0xEF then
      match rest with
      | b2 :: b3 :: rest3 =>
        if (utf8Lo3 b ≤ b2 && b2 ≤ utf8Hi3 b) && isUtf8Cont b3 then
          Char.ofNat ((b - 0xE0) * 4096 + (b2 - 0x80) * 64 + (b3 - 0x80)) ::
            utf8DecodeIgnoreList rest3
        else utf8DecodeIgnoreList (b2 :: b3 :: rest3)
      | [b2] => utf8DecodeIgnoreList [b2]
      | [] => []
    else if 0xF0 ≤ b && b ≤ 0xF4 then
      match rest with
      | b2 :: b3 :: b4 :: rest4 =>
        if (utf8Lo4 b ≤ b2 && b2 ≤ utf8Hi4 b) && isUtf8Cont b3 && isUtf8Cont b4 then
          Char.ofNat ((b - 0xF0) * 262144 + (b2 - 0x80) * 4096 + (b3 - 0x80) * 64 + (b4 - 0x80)) ::
            utf8DecodeIgnoreList rest4
        else utf8DecodeIgnoreList (b2 :: b3 :: b4 :: rest4)
      | [b2, b3] => utf8DecodeIgnoreList [b2, b3]
      | [b2] => utf8DecodeIgnoreList [b2]
      | [] => []
    else utf8DecodeIgnoreList rest

/-- Diff bytes decoded with undecodable bytes dropped, as a string. -/
def utf8DecodeIgnore (bytes : List Nat) : String :=
  String.mk (utf8DecodeIgnoreList bytes)

/-- Modelled from the spec: decoding that substitutes U+FFFD for every
undecodable byte instead of dropping it, the reading of "replacing
undecodable bytes" in section 4.2 of the spec.  Used only to compare the
source behaviour against the wording of the spec. -/
def utf8DecodeReplaceList : List Nat → List Char
  | [] => []
  | b :: rest =>
    if b ≤ 0x7F then Char.ofNat b :: utf8DecodeReplaceList rest
    else if 0xC2 ≤ b && b ≤ 0xDF then
      match rest with
      | b2 :: rest2 =>
        if isUtf8Cont b2 then
          Char.ofNat ((b - 0xC0) * 64 + (b2 - 0x80)) :: utf8DecodeReplaceList rest2
        else Char.ofNat 0xFFFD :: utf8DecodeReplaceList (b2 :: rest2)
      | [] => [Char.ofNat 0xFFFD]
    else if 0xE0 ≤ b && b ≤ 0xEF then
      match rest with
      | b2 :: b3 :: rest3 =>
        if (utf8Lo3 b ≤ b2 && b2 ≤ utf8Hi3 b) && isUtf8Cont b3 then
          Char.ofNat ((b - 0xE0) * 4096 + (b2 - 0x80) * 64 + (b3 - 0x80)) ::
            utf8DecodeReplaceList rest3
        else Char.ofNat 0xFFFD :: utf8DecodeReplaceList (b2 :: b3 :: rest3)
      | [b2] => Char.ofNat 0xFFFD :: utf8DecodeReplaceList [b2]
      | [] => [Char.ofNat 0xFFFD]
    else if 0xF0 ≤ b && b ≤ 0xF4 then
      match rest with
      | b2 :: b3 :: b4 :: rest4 =>
        if (utf8Lo4 b ≤ b2 && b2 ≤ utf8Hi4 b) && isUtf8Cont b3 && isUtf8Cont b4 then
          Char.ofNat ((b - 0xF0) * 262144 + (b2 - 0x80) * 4096 + (b3 - 0x80) * 64 + (b4 - 0x80)) ::
            utf8DecodeReplaceList rest4
        else Char.ofNat 0xFFFD :: utf8DecodeReplaceList (b2 :: b3 :: b4 :: rest4)
      | [b2, b3] => Char.ofNat 0xFFFD :: utf8DecodeReplaceList [b2, b3]
      | [b2] => Char.ofNat 0xFFFD :: utf8DecodeReplaceList [b2]
      | [] => [Char.ofNat 0xFFFD]
    else Char.ofNat 0xFFFD :: utf8DecodeReplaceList rest

/-- Replacing decoder as a string. -/
def utf8DecodeReplace (bytes : List Nat) : String :=
  String.mk (utf8DecodeReplaceList bytes)

/-- Characters treated as whitespace by Python str.strip: the whitespace
table of CPython (Py_UNICODE_ISSPACE), namely 0x09-0x0D, 0x1C-0x1F, space,
NEL 0x85, NBSP 0xA0, Ogham space 0x1680, the 0x2000-0x200A spaces, the line
and paragraph separators 0x2028 and 0x2029, 0x202F, 0x205F and the
ideographic space 0x3000. -/
def isPySpace (c : Char) : Bool :=
  let n := c.toNat
  (0x09 ≤ n && n ≤ 0x0D) || n == 0x20 || (0x1C ≤ n && n ≤ 0x1F) ||
  n == 0x85 || n == 0xA0 || n == 0x1680 || (0x2000 ≤ n && n ≤ 0x200A) ||
  n == 0x2028 || n == 0x2029 || n == 0x202F || n == 0x205F || n == 0x3000

/-- Embedding of Python str.strip from line 135 of service.py: remove leading
and trailing whitespace. -/
def pyStrip (s : String) : String :=
  String.mk (((s.data.dropWhile isPySpace).reverse.dropWhile isPySpace).reverse)

/-- First n characters of a string. -/
def strTake (s : String) (n : Nat) : String := String.mk (s.data.take n)

/-- String form of a FastAPI HTTPException, as produced by str(e) on the
starlette base class: the status code, a colon and a space, then the detail.
This is what the blanket except clause of inline_suggestion observes when it
catches the HTTPException raised on line 134. -/
def strHTTPException (code : Nat) (detail : String) : String :=
  toString code ++ ": " ++ detail

/-- One entry of the temporary workspace at cleanup time.  readOnly models the
permission bit cleared by os.chmod inside on_rm_error; stubborn marks an entry
whose removal keeps failing even after the permission change. -/
structure WsFile where
  name : String
  readOnly : Bool
  stubborn : Bool
deriving DecidableEq

/-- Outcome of one removal attempt on a single workspace entry: removal
succeeds when the entry is neither read-only nor stubborn. -/
def tryRemove (readOnly stubborn : Bool) : Bool := !readOnly && !stubborn

/-- Embedding of on_rm_error from lines 73-75 of service.py: clear the
read-only attribute with os.chmod(path, stat.S_IWRITE), then call func(path)
once more.  Returns the entry state after chmod and whether the retried
removal succeeded. -/
def on_rm_error (f : WsFile) : WsFile × Bool :=
  let f2 : WsFile := { f with readOnly := false }
  (f2, tryRemove f2.readOnly f2.stubborn)

/-- Trace entry for one removal attempt: the read-only bit at the time of the
attempt and whether the attempt succeeded. -/
structure RmAttempt where
  readOnlyAtAttempt : Bool
  succeeded : Bool
deriving DecidableEq

/-- Removal of one workspace entry by shutil.rmtree with on_rm_error as the
error handler: a first attempt and, on failure, the handler runs (chmod plus
exactly one retry).  Returns the attempt trace and the overall outcome. -/
def removeWithRetry (f : WsFile) : List RmAttempt × Bool :=
  if tryRemove f.readOnly f.stubborn then
    ([{ readOnlyAtAttempt := f.readOnly, succeeded := true }], true)
  else
    let r := on_rm_error f
    ([{ readOnlyAtAttempt := f.readOnly, succeeded := false },
      { readOnlyAtAttempt := r.1.readOnly, succeeded := r.2 }], r.2)

/-- Message of the OSError that propagates when a removal still fails after
the retry inside on_rm_error. -/
def rmErrMsg (f : WsFile) : String := "[Errno 13] Permission denied: " ++ f.name

/-- Embedding of shutil.rmtree(tmp_dir, onerror=on_rm_error) from line 76 of
service.py: entries are removed in order; an exception raised inside the
error handler aborts the walk and propagates.  none means the tree was fully
removed. -/
def rmtreeGo : List WsFile → Option String
  | [] => none
  | f :: rest =>
    if (removeWithRetry f).2 then rmtreeGo rest
    else some (rmErrMsg f)

/-- The four git subcommands issued by the remote resolution, in source
order: shallow clone, fetch of the PR head, checkout, three-dot diff. -/
inductive GitCmd where
  | clone
  | fetch
  | checkout
  | diff
deriving DecidableEq

/-- Python exception classes distinguished by the handler of /review:
subprocess.CalledProcessError against every other exception.  The string is
what str(e) yields for the exception object. -/
inductive PyErr where
  | cpe (msg : String)
  | generic (msg : String)
deriving DecidableEq

/-- Detail string built by the two except clauses on lines 101-104 of
service.py; the status is 500 in both arms. -/
def errDetail : PyErr → String
  | .cpe m => "Git error: " ++ m
  | .generic m => m

/-- Environment for one /review request: the outcome of each external step.
Each git field holds the str of the CalledProcessError when that subprocess
exits non-zero.  The backends are functions of the diff text handed to them;
an error value is the str of the exception the backend raised. -/
structure ReviewEnv where
  cloneErr : Option String
  fetchErr : Option String
  checkoutErr : Option String
  diffRes : Except String (List Nat)
  wsFiles : List WsFile
  ruleRes : String → Except String (List (String × List String))
  aiRes : String → Except String (List String × Rat)

/-- The sequential git chain of lines 53-71: a failing step aborts the chain
with a CalledProcessError; on success the diff bytes are decoded with
undecodable bytes ignored.  Also returns the list of git commands actually
issued, in order. -/
def gitSteps (env : ReviewEnv) : Except PyErr String × List GitCmd :=
  match env.cloneErr with
  | some m => (.error (.cpe m), [.clone])
  | none =>
    match env.fetchErr with
    | some m => (.error (.cpe m), [.clone, .fetch])
    | none =>
      match env.checkoutErr with
      | some m => (.error (.cpe m), [.clone, .fetch, .checkout])
      | none =>
        match env.diffRes with
        | .error m => (.error (.cpe m), [.clone, .fetch, .checkout, .diff])
        | .ok bytes => (.ok (utf8DecodeIgnore bytes), [.clone, .fetch, .checkout, .diff])

/-- Request model of /review, lines 21-25 of service.py. -/
structure ReviewRequest where
  diff : Option String := none
  repo_url : Option String := none
  pr_number : Option Int := none
  base : String := "main"
deriving DecidableEq

/-- Response model of /review, lines 27-32; the score is carried as a
rational and passed through untouched. -/
structure ReviewResponse where
  naming_convention : List String
  complexity : List String
  security : List String
  ai_comments : List String
  ai_score : Rat
deriving DecidableEq

/-- Options of the ai_review section of config.yaml that the handlers read. -/
structure AiReviewCfg where
  model : Option String := none
  temperature : Option Rat := none
deriving DecidableEq

/-- Process-wide configuration: presence of the two top-level sections.  The
content of the rules section is opaque to this layer; it is passed to the
rule backend unchanged. -/
structure Config where
  rules : Option Unit := none
  ai_review : Option AiReviewCfg := none
deriving DecidableEq

/-- Python dict.get(key, []) over a result mapping modelled as an association
list, as used on lines 94-96 of service.py. -/
def dictGet (d : List (String × List String)) (k : String) : List String :=
  (d.lookup k).getD []

/-- Result of one /review request: the HTTP outcome plus the trace of the
observable side effects. -/
structure ReviewResult where
  status : Nat
  response : Option ReviewResponse
  detail : Option String
  wsCreated : Bool
  wsCleanupInvoked : Bool
  wsDirAbsent : Bool
  gitCalls : List GitCmd
  diffTextUsed : Option String
deriving DecidableEq

/-- Steps 2-4 of the handler, lines 81-99 of service.py: look up the rules
section (a missing key raises KeyError, whose str is the repr of the key),
run the rule backend, look up the ai_review section, run the AI backend, then
assemble the flat response with empty defaults for missing categories. -/
def runPipeline (cfg : Config) (env : ReviewEnv) (dt : String) :
    Except PyErr ReviewResponse :=
  match cfg.rules with
  | none => .error (.generic "\x27rules\x27")
  | some _ =>
    match env.ruleRes dt with
    | .error m => .error (.generic m)
    | .ok rls =>
      match cfg.ai_review with
      | none => .error (.generic "\x27ai_review\x27")
      | some _ =>
        match env.aiRes dt with
        | .error m => .error (.generic m)
        | .ok (cs, sc) =>
          .ok { naming_convention := dictGet rls "naming_convention",
                complexity := dictGet rls "complexity",
                security := dictGet rls "security",
                ai_comments := cs, ai_score := sc }

/-- Run the pipeline on a resolved diff text and translate the outcome to the
HTTP contract, carrying the workspace trace through. -/
def finishReview (cfg : Config) (env : ReviewEnv) (wsC wsI wsA : Bool)
    (calls : List GitCmd) (dt : String) : ReviewResult :=
  match runPipeline cfg env dt with
  | .error e =>
      { status := 500, response := none, detail := some (errDetail e),
        wsCreated := wsC, wsCleanupInvoked := wsI, wsDirAbsent := wsA,
        gitCalls := calls, diffTextUsed := some dt }
  | .ok resp =>
      { status := 200, response := some resp, detail := none,
        wsCreated := wsC, wsCleanupInvoked := wsI, wsDirAbsent := wsA,
        gitCalls := calls, diffTextUsed := some dt }

/-- Embedding of the /review handler, lines 46-104 of service.py.  When both
remote fields are truthy: mkdtemp, the git chain inside try/finally, rmtree
in the finally block.  An exception raised by rmtree replaces the in-flight
exception (Python try/finally semantics) and leaves the directory behind, so
the cleanup case is decided first.  Otherwise the raw diff field, defaulted
to the empty string, feeds the pipeline directly. -/
def review (cfg : Config) (req : ReviewRequest) (env : ReviewEnv) : ReviewResult :=
  if pyTruthyStr req.repo_url && pyTruthyInt req.pr_number then
    match rmtreeGo env.wsFiles with
    | some m =>
        { status := 500, response := none, detail := some m,
          wsCreated := true, wsCleanupInvoked := true, wsDirAbsent := false,
          gitCalls := (gitSteps env).2, diffTextUsed := none }
    | none =>
        match (gitSteps env).1 with
        | .error e =>
            { status := 500, response := none, detail := some (errDetail e),
              wsCreated := true, wsCleanupInvoked := true, wsDirAbsent := true,
              gitCalls := (gitSteps env).2, diffTextUsed := none }
        | .ok dt => finishReview cfg env true true true (gitSteps env).2 dt
  else
    finishReview cfg env false false true [] (pyOrStr req.diff "")

/-- Request model of /inline-suggestion, lines 35-39 of service.py. -/
structure InlineSuggestionRequest where
  fileName : String
  line : String
  lineNumber : Int
  fullFile : List String
deriving DecidableEq

/-- Message of one choice returned by the AI backend; content may be absent. -/
structure AiMessage where
  content : Option String
deriving DecidableEq

/-- One choice returned by the AI backend; the message attribute may be
absent, which getattr on line 131 turns into None. -/
structure AiChoice where
  message : Option AiMessage
deriving DecidableEq

/-- Environment for one /inline-suggestion request: the AI call either raises
(str of the exception) or returns its list of choices.  A missing API key
surfaces as a raising call. -/
structure InlineEnv where
  callResult : Except String (List AiChoice)

/-- The getattr chain of lines 131-132 of service.py: the message of a
choice, then its content, each defaulting to None when absent. -/
def choiceContent (choice : AiChoice) : Option String :=
  match choice.message with
  | none => none
  | some msg => msg.content

/-- The prompt built on lines 115-123 of service.py. -/
def buildPrompt (req : InlineSuggestionRequest) : String :=
  "You are a senior Python code reviewer.\n" ++
  "Given the following file named \x27" ++ req.fileName ++ "\x27, review line " ++
  toString req.lineNumber ++ ":\n" ++
  "    " ++ req.line ++ "\n" ++
  "Here is the complete file context:\n" ++
  String.intercalate "\n" req.fullFile ++ "\n\n" ++
  "Suggest an improved version of the given line, optionally with a helpful inline code comment. Respond ONLY with the suggested code."

/-- Model identifier for the AI call, line 125: two chained fallbacks via
dict.get, defaulting to gpt-4o-mini. -/
def cfgModel (cfg : Config) : String :=
  match cfg.ai_review with
  | none => "gpt-4o-mini"
  | some a => a.model.getD "gpt-4o-mini"

/-- Temperature for the AI call, line 127: two chained fallbacks via
dict.get, defaulting to 0.2. -/
def cfgTemperature (cfg : Config) : Rat :=
  match cfg.ai_review with
  | none => 0.2
  | some a => a.temperature.getD 0.2

/-- Result of one /inline-suggestion request: the HTTP outcome plus the
parameters the handler passed to the AI call. -/
structure InlineResult where
  status : Nat
  suggestedText : Option String
  detail : Option String
  callModel : String
  callTemperature : Rat
  callMaxTokens : Nat
  callPrompt : String
deriving DecidableEq

/-- Embedding of the /inline-suggestion handler, lines 107-138 of service.py.
The call parameters are computed from the configuration with defaults; the
first choice is extracted (an empty choice list raises IndexError inside the
try); missing or empty content raises HTTPException(500, ...) which the
blanket except clause of the same handler catches and re-raises with str(e)
as the detail; otherwise the content is returned stripped. -/
def inline_suggestion (cfg : Config) (req : InlineSuggestionRequest)
    (env : InlineEnv) : InlineResult :=
  let base : InlineResult :=
    { status := 200, suggestedText := none, detail := none,
      callModel := cfgModel cfg, callTemperature := cfgTemperature cfg,
      callMaxTokens := 100, callPrompt := buildPrompt req }
  match env.callResult with
  | .error m => { base with status := 500, detail := some m }
  | .ok [] => { base with status := 500, detail := some "list index out of range" }
  | .ok (choice :: _) =>
    match choiceContent choice with
    | none =>
      { base with status := 500, detail := some (strHTTPException 500 "No suggestion returned from AI model.") }
    | some c =>
      if c == "" then
        { base with status := 500, detail := some (strHTTPException 500 "No suggestion returned from AI model.") }
      else { base with status := 200, suggestedText := some (pyStrip c) }

/-! Helper lemmas shared by the claim theorems. -/

/-- An element that does not satisfy the predicate survives dropWhile. -/
theorem mem_dropWhile_of_not {α : Type} (p : α → Bool) (x : α) (hp : p x = false) :
    ∀ l : List α, x ∈ l → x ∈ l.dropWhile p := by
  intro l
  induction l with
  | nil => intro hx; cases hx
  | cons a t ih =>
    intro hx
    rw [List.dropWhile_cons]
    by_cases ha : p a = true
    · simp only [ha, if_true]
      rcases List.mem_cons.mp hx with h | h
      · subst h; rw [hp] at ha; exact Bool.noConfusion ha
      · exact ih h
    · simp only [Bool.not_eq_true] at ha
      simp only [ha, Bool.false_eq_true, if_false]
      exact hx

/-- A string holding at least one non-whitespace character does not strip to
the empty string. -/
theorem pyStrip_ne_empty (s : String) (c : Char) (hc : c ∈ s.data)
    (hpc : isPySpace c = false) : pyStrip s ≠ "" := by
  intro he
  have h1 := mem_dropWhile_of_not isPySpace c hpc s.data hc
  have h2 := mem_dropWhile_of_not isPySpace c hpc _ (List.mem_reverse.mpr h1)
  have h3 : c ∈ ((s.data.dropWhile isPySpace).reverse.dropWhile isPySpace).reverse :=
    List.mem_reverse.mpr h2
  have hd : ((s.data.dropWhile isPySpace).reverse.dropWhile isPySpace).reverse = [] :=
    congrArg String.data he
  rw [hd] at h3
  cases h3

/-- Removal of an entry that is not stubborn always ends in success, possibly
after the chmod retry. -/
theorem removeWithRetry_ok (f : WsFile) (h : f.stubborn = false) :
    (removeWithRetry f).2 = true := by
  cases hro : f.readOnly <;>
    simp [removeWithRetry, on_rm_error, tryRemove, h, hro]

/-- When no entry is stubborn, rmtree removes the whole tree. -/
theorem rmtreeGo_none (fs : List WsFile) (h : ∀ f ∈ fs, f.stubborn = false) :
    rmtreeGo fs = none := by
  induction fs with
  | nil => rfl
  | cons f t ih =>
    have h1 : (removeWithRetry f).2 = true :=
      removeWithRetry_ok f (h f (List.mem_cons_self f t))
    have h2 : rmtreeGo t = none := ih (fun g hg => h g (List.mem_cons_of_mem f hg))
    simp [rmtreeGo, h1, h2]

/-- The trace fields of finishReview do not depend on the pipeline outcome. -/
theorem finishReview_trace (cfg : Config) (env : ReviewEnv) (a b c : Bool)
    (calls : List GitCmd) (dt : String) :
    (finishReview cfg env a b c calls dt).wsCreated = a ∧
    (finishReview cfg env a b c calls dt).wsCleanupInvoked = b ∧
    (finishReview cfg env a b c calls dt).wsDirAbsent = c ∧
    (finishReview cfg env a b c calls dt).gitCalls = calls ∧
    (finishReview cfg env a b c calls dt).diffTextUsed = some dt := by
  unfold finishReview
  cases runPipeline cfg env dt <;> simp

/-- When a top-level configuration section is missing, the pipeline never
produces a response. -/
theorem runPipeline_missing (cfg : Config) (env : ReviewEnv) (dt : String)
    (h : cfg.rules = none ∨ cfg.ai_review = none) (r : ReviewResponse) :
    runPipeline cfg env dt ≠ .ok r := by
  intro hok
  unfold runPipeline at hok
  rcases h with h | h
  · rw [h] at hok; cases hok
  · rcases hr : cfg.rules with _ | u
    · rw [hr] at hok; cases hok
    · rw [hr, h] at hok
      rcases hrr : env.ruleRes dt with m | rls
      · rw [hrr] at hok; cases hok
      · rw [hrr] at hok; cases hok

/-- When the pipeline cannot produce a response, finishReview reports 500. -/
theorem finishReview_500 (cfg : Config) (env : ReviewEnv) (a b c : Bool)
    (calls : List GitCmd) (dt : String)
    (h : ∀ r, runPipeline cfg env dt ≠ .ok r) :
    (finishReview cfg env a b c calls dt).status = 500 := by
  unfold finishReview
  rcases hp : runPipeline cfg env dt with e | r
  · simp [hp]
  · exact absurd hp (h r)

/-- The first eleven characters of a git-prefixed detail string. -/
theorem strTake_gitPrefix (m : String) :
    strTake ("Git error: " ++ m) 11 = "Git error: " := by
  rcases m with ⟨l⟩
  show String.mk (("Git error: ".data ++ l).take 11) = "Git error: "
  rw [show (11 : Nat) = ("Git error: ".data).length by rfl]
  rw [List.take_left]

/-! Concrete request, configuration and environment values used by the
closed witness and counterexample theorems. -/

/-- Configuration with both sections present. -/
def cfgFull : Config :=
  { rules := some (), ai_review := some { model := some "gpt-4o", temperature := some 1 } }

/-- Configuration whose ai_review section is missing. -/
def cfgNoAi : Config := { rules := some (), ai_review := none }

/-- A remote review request with both remote fields truthy. -/
def reqRemote : ReviewRequest :=
  { diff := none, repo_url := some "https://example.com/r.git", pr_number := some 5, base := "main" }

/-- A review request with no diff and no remote pair. -/
def req0 : ReviewRequest :=
  { diff := none, repo_url := none, pr_number := none, base := "main" }

/-- A review request carrying only a literal diff. -/
def reqDiff : ReviewRequest :=
  { diff := some "+line", repo_url := none, pr_number := none, base := "main" }

/-- A rule-backend result that omits two of the three categories. -/
def rulesOut : List (String × List String) := [("complexity", ["deep nesting"])]

/-- Remote environment in which every external step succeeds; the workspace
holds one read-only entry that the chmod retry removes. -/
def envRemoteOk : ReviewEnv :=
  { cloneErr := none, fetchErr := none, checkoutErr := none,
    diffRes := .ok [100, 105, 102, 102],
    wsFiles := [{ name := "a.txt", readOnly := true, stubborn := false }],
    ruleRes := fun _ => .ok rulesOut,
    aiRes := fun _ => .ok (["looks fine"], 9) }

/-- Remote environment whose clone step exits non-zero. -/
def envCloneFail : ReviewEnv :=
  { envRemoteOk with cloneErr := some "Command git clone exited 128" }

/-- Environment with an empty workspace, for non-remote requests. -/
def envPlain : ReviewEnv := { envRemoteOk with wsFiles := [] }

/-- Remote environment whose diff output holds an undecodable byte. -/
def envC7 : ReviewEnv := { envPlain with diffRes := .ok [97, 255, 98] }

/-- Inline request from the example of section 8 of the spec. -/
def reqInline : InlineSuggestionRequest :=
  { fileName := "a.py", line := "x=1", lineNumber := 1, fullFile := ["x=1"] }

/-- Inline environment whose single choice carries the given content. -/
def mkInlineEnv (c : Option String) : InlineEnv :=
  { callResult := .ok [{ message := some { content := c } }] }

/-- Backend returns the content of the spec example. -/
def envFixed : InlineEnv := mkInlineEnv (some "x = 1  # fixed spacing")

/-- Backend returns a choice with missing content. -/
def envNoContent : InlineEnv := mkInlineEnv none

/-- Backend returns a choice with empty content. -/
def envEmptyContent : InlineEnv := mkInlineEnv (some "")

/-- Backend returns a choice whose content is a single space. -/
def envSpaceContent : InlineEnv := mkInlineEnv (some " ")

/-! Claim theorems. -/

/-- C1: for every remote review request, the temporary workspace is created
and its cleanup is invoked on every exit path, whichever git step failed or
succeeded and whatever the backends did; whenever every workspace entry is
removable (possibly after the read-only attribute is cleared by the error
handler), the directory is absent from disk when the request completes. -/
theorem remote_workspace_always_cleaned (cfg : Config) (req : ReviewRequest)
    (env : ReviewEnv)
    (hremote : (pyTruthyStr req.repo_url && pyTruthyInt req.pr_number) = true) :
    (review cfg req env).wsCreated = true ∧
    (review cfg req env).wsCleanupInvoked = true ∧
    ((∀ f ∈ env.wsFiles, f.stubborn = false) →
      (review cfg req env).wsDirAbsent = true) := by
  rcases hrm : rmtreeGo env.wsFiles with _ | m
  · rcases hgs : (gitSteps env).1 with e | dt
    · refine ⟨?_, ?_, fun _ => ?_⟩ <;> simp [review, hremote, hrm, hgs]
    · obtain ⟨h1, h2, h3, _, _⟩ :=
        finishReview_trace cfg env true true true (gitSteps env).2 dt
      refine ⟨?_, ?_, fun _ => ?_⟩ <;> simp [review, hremote, hrm, hgs, h1, h2, h3]
  · refine ⟨?_, ?_, fun hns => ?_⟩
    · simp [review, hremote, hrm]
    · simp [review, hremote, hrm]
    · rw [rmtreeGo_none env.wsFiles hns] at hrm
      exact Option.noConfusion hrm

/-- C1 witness: a concrete remote request on a fully succeeding environment
with a read-only workspace entry. -/
theorem remote_workspace_always_cleaned_witness :
    (review cfgFull reqRemote envRemoteOk).wsCreated = true ∧
    (review cfgFull reqRemote envRemoteOk).wsDirAbsent = true := by
  have h := remote_workspace_always_cleaned cfgFull reqRemote envRemoteOk (by decide)
  exact ⟨h.1, h.2.2 (by decide)⟩

/-- C8: whenever the first removal attempt on a workspace entry fails, the
deletion routine performs exactly one further attempt, with the read-only
attribute cleared for that attempt, and the failure propagates out of rmtree
exactly when the retry also fails. -/
theorem rm_retry_once_after_chmod (f : WsFile)
    (h : tryRemove f.readOnly f.stubborn = false) :
    (removeWithRetry f).1 =
      [{ readOnlyAtAttempt := f.readOnly, succeeded := false },
       { readOnlyAtAttempt := false, succeeded := !f.stubborn }] ∧
    (removeWithRetry f).2 = !f.stubborn ∧
    (∀ rest, f.stubborn = true → rmtreeGo (f :: rest) = some (rmErrMsg f)) := by
  have h2 : removeWithRetry f =
      ([{ readOnlyAtAttempt := f.readOnly, succeeded := false },
        { readOnlyAtAttempt := false, succeeded := !f.stubborn }], !f.stubborn) := by
    unfold removeWithRetry
    rw [h]
    simp [on_rm_error, tryRemove]
  refine ⟨by rw [h2], by rw [h2], ?_⟩
  intro rest hs
  simp [rmtreeGo, h2, hs]

/-- C8 witness: a read-only entry fails its first removal, is chmodded, and
the single retry succeeds. -/
theorem rm_retry_once_after_chmod_witness :
    (removeWithRetry { name := "locked.txt", readOnly := true, stubborn := false }).2 = true := by
  have h := rm_retry_once_after_chmod
    { name := "locked.txt", readOnly := true, stubborn := false } (by decide)
  rw [h.2.1]; decide

/-- C9: an empty repo_url or a zero pr_number is falsy, so the remote branch
is not taken: no workspace is created, no git command is issued, and the diff
text falls back to the raw diff field, defaulting to the empty string. -/
theorem falsy_remote_fields_skip_remote (cfg : Config) (req : ReviewRequest)
    (env : ReviewEnv)
    (h : req.repo_url = some "" ∨ req.pr_number = some 0) :
    (review cfg req env).wsCreated = false ∧
    (review cfg req env).gitCalls = [] ∧
    (review cfg req env).diffTextUsed = some (pyOrStr req.diff "") := by
  have hb : (pyTruthyStr req.repo_url && pyTruthyInt req.pr_number) = false := by
    rcases h with h | h <;> rw [h] <;> simp [pyTruthyStr, pyTruthyInt]
  obtain ⟨h1, _, _, h4, h5⟩ :=
    finishReview_trace cfg env false false true [] (pyOrStr req.diff "")
  refine ⟨?_, ?_, ?_⟩ <;> simp [review, hb, h1, h4, h5]

/-- C9 witness: repo_url present but empty while pr_number is set. -/
theorem falsy_remote_fields_skip_remote_witness :
    (review cfgFull { diff := some "+x", repo_url := some "", pr_number := some 7, base := "main" } envPlain).wsCreated = false ∧
    (review cfgFull { diff := some "+x", repo_url := some "", pr_number := some 7, base := "main" } envPlain).diffTextUsed = some "+x" := by
  have h := falsy_remote_fields_skip_remote cfgFull
    { diff := some "+x", repo_url := some "", pr_number := some 7, base := "main" }
    envPlain (Or.inl rfl)
  exact ⟨h.1, by rw [h.2.2]; decide⟩

/-- C2: a request with no diff and no usable remote pair resolves the diff
text to the empty string and still reaches a 200 response assembled from the
backend outputs for the empty diff; it is not rejected. -/
theorem empty_request_empty_diff_200 (cfg : Config) (req : ReviewRequest)
    (env : ReviewEnv) (u : Unit) (a : AiReviewCfg)
    (rls : List (String × List String)) (cs : List String) (sc : Rat)
    (hdiff : req.diff = none)
    (hb : (pyTruthyStr req.repo_url && pyTruthyInt req.pr_number) = false)
    (hrules : cfg.rules = some u)
    (hai : cfg.ai_review = some a)
    (hrr : env.ruleRes "" = .ok rls)
    (har : env.aiRes "" = .ok (cs, sc)) :
    (review cfg req env).status = 200 ∧
    (review cfg req env).diffTextUsed = some "" ∧
    (review cfg req env).response = some
      { naming_convention := dictGet rls "naming_convention",
        complexity := dictGet rls "complexity",
        security := dictGet rls "security",
        ai_comments := cs, ai_score := sc } := by
  have hempty : pyOrStr req.diff "" = "" := by rw [hdiff]; rfl
  refine ⟨?_, ?_, ?_⟩ <;>
    simp [review, hb, hempty, finishReview, runPipeline, hrules, hai, hrr, har]

/-- C2 witness: the fully unset request against succeeding backends. -/
theorem empty_request_empty_diff_200_witness :
    (review cfgFull req0 envPlain).status = 200 ∧
    (review cfgFull req0 envPlain).diffTextUsed = some "" := by
  have h := empty_request_empty_diff_200 cfgFull req0 envPlain ()
    { model := some "gpt-4o", temperature := some 1 }
    rulesOut ["looks fine"] 9 rfl (by decide) rfl rfl rfl rfl
  exact ⟨h.1, h.2.1⟩

/-- C3: assembly is a pure structural mapping: each of the three fixed
categories of the response equals exactly the sequence looked up in the
backend result mapping, with the empty sequence substituted when the key is
absent, and the request never fails on a missing category; the AI comments
and score pass through untouched. -/
theorem assemble_categories_default_empty (cfg : Config) (req : ReviewRequest)
    (env : ReviewEnv) (u : Unit) (a : AiReviewCfg)
    (rls : List (String × List String)) (cs : List String) (sc : Rat)
    (hb : (pyTruthyStr req.repo_url && pyTruthyInt req.pr_number) = false)
    (hrules : cfg.rules = some u)
    (hai : cfg.ai_review = some a)
    (hrr : env.ruleRes (pyOrStr req.diff "") = .ok rls)
    (har : env.aiRes (pyOrStr req.diff "") = .ok (cs, sc)) :
    (review cfg req env).status = 200 ∧
    ∃ r, (review cfg req env).response = some r ∧
      r.naming_convention = (rls.lookup "naming_convention").getD [] ∧
      r.complexity = (rls.lookup "complexity").getD [] ∧
      r.security = (rls.lookup "security").getD [] ∧
      r.ai_comments = cs ∧ r.ai_score = sc := by
  refine ⟨?_,
    ⟨{ naming_convention := dictGet rls "naming_convention",
       complexity := dictGet rls "complexity",
       security := dictGet rls "security",
       ai_comments := cs, ai_score := sc }, ?_, ?_, ?_, ?_, ?_, ?_⟩⟩ <;>
    simp [review, hb, finishReview, runPipeline, hrules, hai, hrr, har, dictGet]

/-- C3 witness: a backend mapping holding only the complexity category. -/
theorem assemble_categories_default_empty_witness :
    (review cfgFull reqDiff envPlain).status = 200 ∧
    (review cfgFull reqDiff envPlain).response.isSome = true := by
  obtain ⟨h1, r, hr, _⟩ := assemble_categories_default_empty cfgFull reqDiff envPlain ()
    { model := some "gpt-4o", temperature := some 1 }
    rulesOut ["looks fine"] 9 (by decide) rfl rfl rfl rfl
  exact ⟨h1, by rw [hr]; rfl⟩

/-- C4: when any git step exits non-zero (and the workspace cleanup itself
succeeds), the whole resolution aborts: no response is produced, the request
surfaces 500 with a detail string whose first eleven characters are the git
marker, and no git command is repeated (the issued command list has no
duplicate and stops at the failing step). -/
theorem git_failure_500_git_prefixed (cfg : Config) (req : ReviewRequest)
    (env : ReviewEnv)
    (hremote : (pyTruthyStr req.repo_url && pyTruthyInt req.pr_number) = true)
    (hclean : rmtreeGo env.wsFiles = none)
    (herr : env.cloneErr ≠ none ∨ env.fetchErr ≠ none ∨ env.checkoutErr ≠ none ∨
      (∃ m, env.diffRes = Except.error m)) :
    (review cfg req env).status = 500 ∧
    strTake ((review cfg req env).detail.getD "") 11 = "Git error: " ∧
    (review cfg req env).response = none ∧
    (review cfg req env).gitCalls.Nodup := by
  rcases hc : env.cloneErr with _ | m
  · rcases hf : env.fetchErr with _ | m
    · rcases hk : env.checkoutErr with _ | m
      · rcases hd : env.diffRes with m | bs
        · refine ⟨?_, ?_, ?_, ?_⟩ <;>
            simp [review, gitSteps, hremote, hclean, hc, hf, hk, hd, errDetail,
              strTake_gitPrefix]
        · rcases herr with h | h | h | ⟨m, h⟩
          · exact absurd hc h
          · exact absurd hf h
          · exact absurd hk h
          · rw [hd] at h; cases h
      · refine ⟨?_, ?_, ?_, ?_⟩ <;>
          simp [review, gitSteps, hremote, hclean, hc, hf, hk, errDetail,
            strTake_gitPrefix]
    · refine ⟨?_, ?_, ?_, ?_⟩ <;>
        simp [review, gitSteps, hremote, hclean, hc, hf, errDetail, strTake_gitPrefix]
  · refine ⟨?_, ?_, ?_, ?_⟩ <;>
      simp [review, gitSteps, hremote, hclean, hc, errDetail, strTake_gitPrefix]

/-- C4 witness: a failing clone on a concrete remote request. -/
theorem git_failure_500_git_prefixed_witness :
    (review cfgFull reqRemote envCloneFail).status = 500 ∧
    strTake ((review cfgFull reqRemote envCloneFail).detail.getD "") 11 = "Git error: " := by
  have h := git_failure_500_git_prefixed cfgFull reqRemote envCloneFail
    (by decide) (by decide) (Or.inl (by decide))
  exact ⟨h.1, h.2.1⟩

/-- C7 counterexample: at diff output bytes 97, 255, 98 the handler resolves
the diff text to "ab": the undecodable byte 255 is dropped, not replaced, so
the text differs from the replacing decoding (a, U+FFFD, b) that the wording
of the claim describes. -/
theorem decode_replace_cex :
    (review cfgFull reqRemote envC7).diffTextUsed = some "ab" ∧
    utf8DecodeReplace [97, 255, 98] = "a�b" ∧
    (review cfgFull reqRemote envC7).diffTextUsed ≠ some (utf8DecodeReplace [97, 255, 98]) := by
  decide

/-- C7 amended: decoding of the diff bytes never fails, for every byte
sequence: undecodable bytes are dropped (errors ignored) rather than raising,
and whenever the git chain succeeds the resolution always yields the
ignore-decoded text, whatever the bytes were. -/
theorem decode_ignore_total (cfg : Config) (req : ReviewRequest)
    (env : ReviewEnv) (bytes : List Nat)
    (hremote : (pyTruthyStr req.repo_url && pyTruthyInt req.pr_number) = true)
    (hc : env.cloneErr = none) (hf : env.fetchErr = none)
    (hk : env.checkoutErr = none) (hd : env.diffRes = .ok bytes)
    (hclean : rmtreeGo env.wsFiles = none) :
    (review cfg req env).diffTextUsed = some (utf8DecodeIgnore bytes) := by
  have h5 := (finishReview_trace cfg env true true true
    [GitCmd.clone, GitCmd.fetch, GitCmd.checkout, GitCmd.diff] (utf8DecodeIgnore bytes)).2.2.2.2
  simp [review, gitSteps, hremote, hclean, hc, hf, hk, hd, h5]

/-- C7 amended witness: concrete all-ASCII diff bytes resolve to "diff". -/
theorem decode_ignore_total_witness :
    (review cfgFull reqRemote envPlain).diffTextUsed = some "diff" := by
  have h := decode_ignore_total cfgFull reqRemote envPlain [100, 105, 102, 102]
    (by decide) rfl rfl rfl rfl rfl
  rw [h]; decide

/-- C5: evaluated at a backend response whose first choice has missing or
empty content, the handler builds HTTPException(500, "No suggestion returned
from AI model.") but its own blanket except clause catches it and re-raises
with str(e) as the detail, so the surfaced detail is the 500-prefixed string,
not the bare fixed message the claim and the code evidently intend. -/
theorem inline_no_content_detail_bug :
    (inline_suggestion cfgFull reqInline envNoContent).status = 500 ∧
    (inline_suggestion cfgFull reqInline envNoContent).detail =
      some "500: No suggestion returned from AI model." ∧
    (inline_suggestion cfgFull reqInline envNoContent).detail ≠
      some "No suggestion returned from AI model." ∧
    (inline_suggestion cfgFull reqInline envEmptyContent).detail =
      some "500: No suggestion returned from AI model." := by
  decide

/-- C6 counterexample: a backend content consisting of a single space is a
non-empty string, passes the falsiness check, and yields an empty
suggestedText, refuting the part of the claim stating that the returned
suggestion is non-empty for every non-empty content. -/
theorem inline_trim_nonempty_cex :
    (inline_suggestion cfgFull reqInline envSpaceContent).status = 200 ∧
    (inline_suggestion cfgFull reqInline envSpaceContent).suggestedText = some "" := by
  decide

/-- C6 amended: for every non-empty backend content the handler returns 200
with exactly the content trimmed of surrounding whitespace, and the result is
non-empty whenever the content holds at least one non-whitespace character
(whitespace-only content trims to the empty string). -/
theorem inline_trimmed_suggestion (cfg : Config) (req : InlineSuggestionRequest)
    (env : InlineEnv) (c : String) (rest : List AiChoice)
    (hcall : env.callResult = .ok ({ message := some { content := some c } } :: rest))
    (hne : c ≠ "") :
    (inline_suggestion cfg req env).status = 200 ∧
    (inline_suggestion cfg req env).suggestedText = some (pyStrip c) ∧
    ((∃ ch ∈ c.data, isPySpace ch = false) →
      (inline_suggestion cfg req env).suggestedText ≠ some "") := by
  have hbeq : (c == "") = false := by simp [hne]
  refine ⟨?_, ?_, ?_⟩
  · simp [inline_suggestion, hcall, choiceContent, hbeq]
  · simp [inline_suggestion, hcall, choiceContent, hbeq]
  · intro hex
    obtain ⟨ch, hch, hp⟩ := hex
    have hne2 : pyStrip c ≠ "" := pyStrip_ne_empty c ch hch hp
    simp [inline_suggestion, hcall, choiceContent, hbeq]
    exact hne2

/-- C6 amended witness: the spec example content passes through trimmed and
unchanged. -/
theorem inline_trimmed_suggestion_witness :
    (inline_suggestion cfgFull reqInline envFixed).status = 200 ∧
    (inline_suggestion cfgFull reqInline envFixed).suggestedText =
      some "x = 1  # fixed spacing" := by
  have h := inline_trimmed_suggestion cfgFull reqInline envFixed
    "x = 1  # fixed spacing" [] rfl (by decide)
  exact ⟨h.1, by rw [h.2.1]; decide⟩

/-- C10: the two endpoints treat a missing configuration section
asymmetrically: /review answers 500 whenever the rules or the ai_review
section is missing (the key lookup raises and propagates), for every request
and environment, while /inline-suggestion succeeds without the ai_review
section, calling the backend with the default model gpt-4o-mini, the default
temperature 0.2 and the fixed max_tokens 100. -/
theorem config_sections_asymmetry :
    (∀ cfg req env, cfg.rules = none ∨ cfg.ai_review = none →
      (review cfg req env).status = 500) ∧
    (∀ cfg req env c rest,
      cfg.ai_review = none →
      env.callResult = Except.ok ({ message := some { content := some c } } :: rest) →
      c ≠ "" →
      (inline_suggestion cfg req env).status = 200 ∧
      (inline_suggestion cfg req env).callModel = "gpt-4o-mini" ∧
      (inline_suggestion cfg req env).callTemperature = 0.2 ∧
      (inline_suggestion cfg req env).callMaxTokens = 100) := by
  constructor
  · intro cfg req env h
    cases hb : (pyTruthyStr req.repo_url && pyTruthyInt req.pr_number) with
    | false =>
      have heq : review cfg req env =
          finishReview cfg env false false true [] (pyOrStr req.diff "") := by
        simp [review, hb]
      rw [heq]
      exact finishReview_500 cfg env false false true [] _
        (runPipeline_missing cfg env _ h)
    | true =>
      rcases hrm : rmtreeGo env.wsFiles with _ | m
      · rcases hgs : (gitSteps env).1 with e | dt
        · simp [review, hb, hrm, hgs]
        · have heq : review cfg req env =
              finishReview cfg env true true true (gitSteps env).2 dt := by
            simp [review, hb, hrm, hgs]
          rw [heq]
          exact finishReview_500 cfg env true true true _ _
            (runPipeline_missing cfg env _ h)
      · simp [review, hb, hrm]
  · intro cfg req env c rest hai hcall hne
    have hbeq : (c == "") = false := by simp [hne]
    refine ⟨?_, ?_, ?_, ?_⟩ <;>
      simp [inline_suggestion, hcall, choiceContent, hbeq, cfgModel, cfgTemperature, hai]

/-- C10 witness: a configuration with only the rules section makes /review
fail and /inline-suggestion succeed with the defaults. -/
theorem config_sections_asymmetry_witness :
    (review cfgNoAi req0 envPlain).status = 500 ∧
    (inline_suggestion cfgNoAi reqInline envFixed).status = 200 ∧
    (inline_suggestion cfgNoAi reqInline envFixed).callModel = "gpt-4o-mini" ∧
    (inline_suggestion cfgNoAi reqInline envFixed).callTemperature = 0.2 := by
  have h1 := config_sections_asymmetry.1 cfgNoAi req0 envPlain (Or.inr rfl)
  have h2 := config_sections_asymmetry.2 cfgNoAi reqInline envFixed
    "x = 1  # fixed spacing" [] rfl rfl (by decide)
  exact ⟨h1, h2.1, h2.2.1, h2.2.2.1⟩

end Service
